import Mathlib

/-
Verification of the NEO data model (src/models.py): the `NearEarthObject`
and `CloseApproach` entities, their constructors, derived string views and
the `serialize` method.  Python floats are embedded as exact rationals plus
an explicit NaN constructor (no arithmetic is performed on them in the
source, only construction, comparison and fixed-point formatting); Python
values that can flow into the constructors are embedded as a small sum
type; fallible operations return `Except`/`Option`.
-/

/-- A Python float as used by the source: either the NaN sentinel or an
exact numeric value.  The source never does arithmetic on these, only
stores, compares and formats them. -/
inductive PyFloat where
  | nan : PyFloat
  | val : ℚ → PyFloat
deriving DecidableEq, Repr

/-- Python `==` on floats: NaN compares unequal to everything, itself
included. -/
def PyFloat.pyEq : PyFloat → PyFloat → Bool
  | .val a, .val b => a == b
  | _, _ => false

/-- `math.isnan`. -/
def PyFloat.isnan : PyFloat → Bool
  | .nan => true
  | .val _ => false

/-- A Python value as it can appear as a raw constructor argument or inside
a serialized mapping: `None`, a bool, a string, or a float. -/
inductive PyVal where
  | none : PyVal
  | bool : Bool → PyVal
  | str : String → PyVal
  | num : PyFloat → PyVal
deriving DecidableEq, Repr

/-- Python `x == 'Y'` for an arbitrary value `x`: true exactly when `x` is
the string "Y" (comparing a non-string to a string is `False` in Python). -/
def PyVal.eqStrY : PyVal → Bool
  | .str s => s == "Y"
  | _ => false

/-- The raw `diameter` constructor argument: the empty string, or a float
(the default is `float('nan')`). -/
inductive DiameterInput where
  | emptyStr : DiameterInput
  | flt : PyFloat → DiameterInput
deriving DecidableEq, Repr

/-- `float(diameter) if diameter != '' else float('nan')` from
`NearEarthObject.__init__` (models.py line 45). -/
def DiameterInput.toPyFloat : DiameterInput → PyFloat
  | .emptyStr => .nan
  | .flt f => f

/-- Round the fraction `a / b` (with `b > 0`) to the nearest integer, ties
to even — the rounding used by Python fixed-point formatting.  Written
with integer floor-division so that it evaluates inside the kernel. -/
def roundHalfEvenScaled (a b : ℤ) : ℤ :=
  let f : ℤ := Int.fdiv a b
  let r : ℤ := a - f * b
  if 2 * r < b then f
  else if b < 2 * r then f + 1
  else if f % 2 = 0 then f else f + 1

/-- Left-pad a string with a character up to a given length. -/
def padLeft (c : Char) (n : ℕ) (s : String) : String :=
  String.mk (List.replicate (n - s.length) c) ++ s

/-- Python `format(q, '.{prec}f')` on an exact numeric value: fixed-point
decimal with `prec` digits after the point, ties rounded to even.  The
scaling `q * 10 ^ prec` is computed on the reduced numerator and
denominator. -/
def formatFixed (prec : ℕ) (q : ℚ) : String :=
  let n : ℤ :=
    roundHalfEvenScaled (q.num * Int.ofNat (10 ^ prec)) (Int.ofNat q.den)
  let sign : String := if n < 0 then "-" else ""
  let a : ℕ := n.natAbs
  let ip : ℕ := a / 10 ^ prec
  let fp : ℕ := a % 10 ^ prec
  if prec = 0 then sign ++ toString ip
  else sign ++ toString ip ++ "." ++ padLeft '0' prec (toString fp)

/-- Python `format(x, '.{prec}f')` on a float; NaN renders as "nan". -/
def PyFloat.format (prec : ℕ) : PyFloat → String
  | .nan => "nan"
  | .val q => formatFixed prec q

/-- A near-Earth object as constructed by `NearEarthObject.__init__`
(models.py lines 37-49).  The `approaches` collection is initialized empty
and only mutated by the external linker; it is mutually recursive with
`CloseApproach` and is read by none of the operations below, so it is not
part of the embedded state. -/
structure NearEarthObject where
  name : Option String
  designation : String
  diameter : PyFloat
  hazardous : Bool
deriving DecidableEq, Repr

/-- `NearEarthObject.__init__` (models.py lines 37-46): empty-string name
normalizes to `None`, empty-string diameter to NaN, and the hazardous flag
is `raw == 'Y'`.  Python defaults: `designation=''`, `name=None`,
`diameter=float('nan')`, `hazardous=False`. -/
def NearEarthObject.init (designation : String) (name : Option String)
    (diameter : DiameterInput) (hazardous : PyVal) : NearEarthObject :=
  { name := if name = some "" then Option.none else name
    designation := designation
    diameter := diameter.toPyFloat
    hazardous := hazardous.eqStrY }

/-- Python truthiness of the stored optional name: `None` and the empty
string are falsy. -/
def optStrTruthy : Option String → Bool
  | Option.none => false
  | some s => s ≠ ""

/-- The `fullname` property (models.py lines 51-56). -/
def NearEarthObject.fullname (o : NearEarthObject) : String :=
  if optStrTruthy o.name then
    o.designation ++ " (" ++ (o.name.getD "") ++ ")"
  else o.designation

/-- `NearEarthObject.__str__` (models.py lines 58-67). -/
def NearEarthObject.str (o : NearEarthObject) : String :=
  if ¬ o.diameter.isnan then
    "NEO " ++ o.fullname ++ " has a diameter of " ++ o.diameter.format 3 ++
      " km and " ++ (if o.hazardous then "is" else "is not") ++
      " potentially hazardous."
  else
    "NEO " ++ o.fullname ++ ", " ++
      (if o.hazardous then "is" else "is not") ++ " potentially hazardous."

/-- Python `repr` of a string; the source strings never contain quotes or
escapes, so plain single-quoting suffices. -/
def pyReprStr (s : String) : String := "\x27" ++ s ++ "\x27"

/-- Python `repr` of an optional string (`None` or a quoted string). -/
def pyReprOptStr : Option String → String
  | Option.none => "None"
  | some s => pyReprStr s

/-- `NearEarthObject.__repr__` (models.py lines 69-74); note the double
space after the first comma, present in the source. -/
def NearEarthObject.reprStr (o : NearEarthObject) : String :=
  "NearEarthObject(designation=" ++ pyReprStr o.designation ++ ",  name=" ++
    pyReprOptStr o.name ++ ", diameter=" ++ o.diameter.format 3 ++
    ", hazardous=" ++ (if o.hazardous then "True" else "False") ++ ")"

/-- The structured date-time value produced by the external date helpers
(what `datetime` carries at the precision the formats use). -/
structure PyDateTime where
  year : ℕ
  month : ℕ
  day : ℕ
  hour : ℕ
  minute : ℕ
deriving DecidableEq, Repr

/-- Three-letter month abbreviation used by the compact date format. -/
def monthAbbrev (m : ℕ) : String :=
  if m = 1 then "Jan" else if m = 2 then "Feb" else if m = 3 then "Mar"
  else if m = 4 then "Apr" else if m = 5 then "May" else if m = 6 then "Jun"
  else if m = 7 then "Jul" else if m = 8 then "Aug" else if m = 9 then "Sep"
  else if m = 10 then "Oct" else if m = 11 then "Nov" else "Dec"

/-- Month number of a three-letter abbreviation, if valid. -/
def monthOfAbbrev (s : String) : Option ℕ :=
  if s = "Jan" then some 1 else if s = "Feb" then some 2
  else if s = "Mar" then some 3 else if s = "Apr" then some 4
  else if s = "May" then some 5 else if s = "Jun" then some 6
  else if s = "Jul" then some 7 else if s = "Aug" then some 8
  else if s = "Sep" then some 9 else if s = "Oct" then some 10
  else if s = "Nov" then some 11 else if s = "Dec" then some 12
  else Option.none

/-- Modelled from the spec: `datetime_to_str`, the external date-formatting
collaborator imported from `helpers` (a file not present in the source
tree).  Per the spec it renders the fixed human-readable pattern
`YYYY-Mon-DD HH:MM`, without seconds (example: "1900-Dec-27 01:30"). -/
def datetime_to_str (t : PyDateTime) : String :=
  padLeft '0' 4 (toString t.year) ++ "-" ++ monthAbbrev t.month ++ "-" ++
    padLeft '0' 2 (toString t.day) ++ " " ++
    padLeft '0' 2 (toString t.hour) ++ ":" ++ padLeft '0' 2 (toString t.minute)

/-- Split a character list on a separator character. -/
def splitOnChar (c : Char) : List Char → List (List Char)
  | [] => [[]]
  | x :: xs =>
    let rest := splitOnChar c xs
    if x = c then [] :: rest
    else
      match rest with
      | [] => [[x]]
      | r :: rs => (x :: r) :: rs

/-- Decimal value of a digit character, if it is one. -/
def digitVal (c : Char) : Option ℕ :=
  if c.isDigit then some (c.toNat - 48) else Option.none

/-- Parse a nonempty all-digit character list as a natural number. -/
def natOfDigits (l : List Char) : Option ℕ :=
  match l with
  | [] => Option.none
  | _ =>
    l.foldl
      (fun acc c =>
        match acc, digitVal c with
        | some a, some d => some (a * 10 + d)
        | _, _ => Option.none)
      (some 0)

/-- Modelled from the spec: `cd_to_datetime`, the external date-parsing
collaborator imported from `helpers` (a file not present in the source
tree).  Per the spec it parses the fixed compact format
`YYYY-Mon-DD HH:MM` into a structured date-time value, and yields null on
any string it cannot parse; calendar-range validation beyond the field
shapes is not specified and not modelled. -/
def cd_to_datetime (s : String) : Option PyDateTime :=
  match splitOnChar ' ' s.toList with
  | [datePart, timePart] =>
    match splitOnChar '-' datePart, splitOnChar ':' timePart with
    | [y, mon, d], [h, mi] =>
      match natOfDigits y, monthOfAbbrev (String.mk mon), natOfDigits d,
          natOfDigits h, natOfDigits mi with
      | some yn, some mn, some dn, some hn, some min' =>
        some ⟨yn, mn, dn, hn, min'⟩
      | _, _, _, _, _ => Option.none
    | _, _ => Option.none
  | _ => Option.none

/-- A close approach as constructed by `CloseApproach.__init__`
(models.py lines 91-104).  The constructor argument named `neo` (the raw
designation of the owning NEO) is stored in the private `_designation`
attribute; the `neo` attribute itself starts as `None`. -/
structure CloseApproach where
  priv_designation : Option String
  time : Option PyDateTime
  distance : ℚ
  velocity : ℚ
  neo : Option NearEarthObject
deriving DecidableEq, Repr

/-- `CloseApproach.__init__` (models.py lines 91-104).  Python defaults:
`distance=0.0`, `velocity=0.0`, `time='0001-Jan-01 00:00'`, `neo=None`. -/
def CloseApproach.init (distance : ℚ) (velocity : ℚ) (time : String)
    (neo : Option String) : CloseApproach :=
  { priv_designation := neo
    time := cd_to_datetime time
    distance := distance
    velocity := velocity
    neo := Option.none }

/-- The external linker's single mutation point: assigning the resolved
`NearEarthObject` to the `neo` attribute. -/
def CloseApproach.link (ca : CloseApproach) (n : NearEarthObject) :
    CloseApproach :=
  { ca with neo := some n }

/-- The `time_str` property (models.py lines 106-122); a `datetime` object
is always truthy and `None` is falsy, so `if self.time:` branches exactly
on presence. -/
def CloseApproach.time_str (ca : CloseApproach) : String :=
  match ca.time with
  | some t => datetime_to_str t
  | Option.none => "an unknown date and time"

/-- The `designation` property (models.py lines 124-127): returns the
stored `_designation`. -/
def CloseApproach.designation (ca : CloseApproach) : Option String :=
  ca.priv_designation

/-- `CloseApproach.__str__` (models.py lines 129-133): dereferences
`self.neo.fullname`, so on an unlinked event it raises `AttributeError`
(embedded as `none`). -/
def CloseApproach.str (ca : CloseApproach) : Option String :=
  match ca.neo with
  | some n =>
    some ("At " ++ ca.time_str ++ ", \x27" ++ n.fullname ++
      "\x27 approached Earth at a distance of " ++
      formatFixed 2 ca.distance ++ " au and a velocity of " ++
      formatFixed 2 ca.velocity ++ " km/s.")
  | Option.none => Option.none

/-- Python `repr` of the `neo` attribute: `None`, or the owning object's
`__repr__`. -/
def pyReprOptNeo : Option NearEarthObject → String
  | Option.none => "None"
  | some n => n.reprStr

/-- `CloseApproach.__repr__` (models.py lines 135-141): total, it renders
`self.neo` with `!r` and never dereferences it. -/
def CloseApproach.reprStr (ca : CloseApproach) : String :=
  "CloseApproach(time=" ++ pyReprStr ca.time_str ++ ", distance=" ++
    formatFixed 2 ca.distance ++ ", velocity=" ++
    formatFixed 2 ca.velocity ++ ", neo=" ++ pyReprOptNeo ca.neo ++ ")"

/-- One value of a serialized mapping: a scalar, or (for the `json`
variant's `neo` entry) a nested flat mapping. -/
inductive SerValue where
  | scalar : PyVal → SerValue
  | nested : List (String × PyVal) → SerValue
deriving DecidableEq, Repr

/-- The Python error outcomes `serialize` can raise. -/
inductive PyError where
  | valueError : String → PyError
  | attributeError : String → PyError
deriving DecidableEq, Repr

/-- The stored optional name as it appears inside a serialized mapping. -/
def optStrVal : Option String → PyVal
  | Option.none => PyVal.none
  | some s => PyVal.str s

/-- `CloseApproach.serialize` (models.py lines 143-174): rejects any
extension outside `{csv, json}` with `ValueError("Invalid file extension")`
before building anything; both remaining branches dereference `self.neo`,
which raises `AttributeError` on an unlinked event. -/
def CloseApproach.serialize (ca : CloseApproach) (extension : String) :
    Except PyError (List (String × SerValue)) :=
  if extension ≠ "csv" ∧ extension ≠ "json" then
    Except.error (PyError.valueError "Invalid file extension")
  else
    match ca.neo with
    | Option.none =>
      Except.error
        (PyError.attributeError
          "NoneType object has no attribute designation")
    | some n =>
      if extension = "csv" then
        Except.ok
          [("datetime_utc", SerValue.scalar (PyVal.str ca.time_str)),
           ("distance_au", SerValue.scalar (PyVal.num (PyFloat.val ca.distance))),
           ("velocity_km_s", SerValue.scalar (PyVal.num (PyFloat.val ca.velocity))),
           ("designation", SerValue.scalar (PyVal.str n.designation)),
           ("name", SerValue.scalar (optStrVal n.name)),
           ("diameter_km", SerValue.scalar (PyVal.num n.diameter)),
           ("potentially_hazardous", SerValue.scalar (PyVal.bool n.hazardous))]
      else
        Except.ok
          [("datetime_utc", SerValue.scalar (PyVal.str ca.time_str)),
           ("distance_au", SerValue.scalar (PyVal.num (PyFloat.val ca.distance))),
           ("velocity_km_s", SerValue.scalar (PyVal.num (PyFloat.val ca.velocity))),
           ("neo", SerValue.nested
             [("designation", PyVal.str n.designation),
              ("name", optStrVal n.name),
              ("diameter_km", PyVal.num n.diameter),
              ("potentially_hazardous", PyVal.bool n.hazardous)])]

/-- The spec's end-to-end fixture: Eros, `CelestialObject(designation="433",
name="Eros", diameter=16.84, hazardous="N")`. -/
def erosNeo : NearEarthObject :=
  NearEarthObject.init "433" (some "Eros")
    (DiameterInput.flt (PyFloat.val (Rat.divInt 1684 100))) (PyVal.str "N")

/-- The spec's end-to-end fixture: `ApproachEvent(distance=0.148,
velocity=5.1, time="1900-Dec-27 01:30", neo="433")`. -/
def erosApproach : CloseApproach :=
  CloseApproach.init (Rat.divInt 148 1000) (Rat.divInt 51 10) "1900-Dec-27 01:30" (some "433")

/-- C1: on a linked event, `serialize("csv")` returns the flat mapping with
exactly the keys datetime_utc, distance_au, velocity_km_s, designation,
name, diameter_km, potentially_hazardous, and `serialize("json")` returns
the mapping with keys datetime_utc, distance_au, velocity_km_s and a
nested `neo` mapping; every scalar value is the same expression in both
shapes, so the two results differ only in flat-vs-nested structure. -/
theorem serialize_csv_json_linked_agree (ca : CloseApproach)
    (n : NearEarthObject) (h : ca.neo = some n) :
    ca.serialize "csv" =
      Except.ok
        [("datetime_utc", SerValue.scalar (PyVal.str ca.time_str)),
         ("distance_au", SerValue.scalar (PyVal.num (PyFloat.val ca.distance))),
         ("velocity_km_s", SerValue.scalar (PyVal.num (PyFloat.val ca.velocity))),
         ("designation", SerValue.scalar (PyVal.str n.designation)),
         ("name", SerValue.scalar (optStrVal n.name)),
         ("diameter_km", SerValue.scalar (PyVal.num n.diameter)),
         ("potentially_hazardous", SerValue.scalar (PyVal.bool n.hazardous))] ∧
    ca.serialize "json" =
      Except.ok
        [("datetime_utc", SerValue.scalar (PyVal.str ca.time_str)),
         ("distance_au", SerValue.scalar (PyVal.num (PyFloat.val ca.distance))),
         ("velocity_km_s", SerValue.scalar (PyVal.num (PyFloat.val ca.velocity))),
         ("neo", SerValue.nested
           [("designation", PyVal.str n.designation),
            ("name", optStrVal n.name),
            ("diameter_km", PyVal.num n.diameter),
            ("potentially_hazardous", PyVal.bool n.hazardous)])] := by
  constructor <;> simp [CloseApproach.serialize, h]

theorem serialize_csv_json_linked_agree_witness :
    (erosApproach.link erosNeo).serialize "csv" =
      Except.ok
        [("datetime_utc", SerValue.scalar (PyVal.str "1900-Dec-27 01:30")),
         ("distance_au", SerValue.scalar (PyVal.num (PyFloat.val (Rat.divInt 148 1000)))),
         ("velocity_km_s", SerValue.scalar (PyVal.num (PyFloat.val (Rat.divInt 51 10)))),
         ("designation", SerValue.scalar (PyVal.str "433")),
         ("name", SerValue.scalar (PyVal.str "Eros")),
         ("diameter_km", SerValue.scalar (PyVal.num (PyFloat.val (Rat.divInt 1684 100)))),
         ("potentially_hazardous", SerValue.scalar (PyVal.bool false))] :=
  ((serialize_csv_json_linked_agree (erosApproach.link erosNeo) erosNeo
    rfl).1).trans rfl

/-- C2: for every event and every extension outside {"csv", "json"},
`serialize` raises `ValueError("Invalid file extension")` and returns no
mapping, partial or otherwise. -/
theorem serialize_invalid_extension (ca : CloseApproach) (ext : String)
    (h1 : ext ≠ "csv") (h2 : ext ≠ "json") :
    ca.serialize ext =
      Except.error (PyError.valueError "Invalid file extension") := by
  unfold CloseApproach.serialize
  rw [if_pos ⟨h1, h2⟩]

theorem serialize_invalid_extension_witness :
    erosApproach.serialize "xml" =
      Except.error (PyError.valueError "Invalid file extension") :=
  serialize_invalid_extension erosApproach "xml" (by decide) (by decide)

/-- C3: the constructed `hazardous` attribute is true if and only if the
raw hazardous-indicator input is exactly the string "Y"; every other
input — "y", "N", "", the `False` default, any non-string — yields
false. -/
theorem hazardous_iff_literal_Y (designation : String) (name : Option String)
    (diameter : DiameterInput) (hazardous : PyVal) :
    (NearEarthObject.init designation name diameter hazardous).hazardous
      = true ↔ hazardous = PyVal.str "Y" := by
  cases hazardous <;>
    simp [NearEarthObject.init, PyVal.eqStrY]

/-- C4: `fullname` returns `designation ++ " (" ++ name ++ ")"` when a
non-empty name was supplied, and just the designation when the name input
was absent or the empty string; it is a pure total function on constructed
instances (in this embedding totality is by type). -/
theorem fullname_spec (designation : String) (name : Option String)
    (diameter : DiameterInput) (hazardous : PyVal) :
    (NearEarthObject.init designation name diameter hazardous).fullname =
      match name with
      | some s =>
        if s = "" then designation else designation ++ " (" ++ s ++ ")"
      | Option.none => designation := by
  cases name with
  | none =>
    simp [NearEarthObject.init, NearEarthObject.fullname, optStrTruthy]
  | some s =>
    by_cases hs : s = "" <;>
      simp [NearEarthObject.init, NearEarthObject.fullname, optStrTruthy, hs]

/-- C5: the human-readable description is
"NEO {fullname} has a diameter of {diameter:.3f} km and {is|is not}
potentially hazardous." for a known (non-NaN) diameter, and
"NEO {fullname}, {is|is not} potentially hazardous." for the NaN sentinel,
branching on the hazardous boolean; in particular the object constructed
with designation "2015 AB" and empty-string diameter describes itself as
"NEO 2015 AB, is not potentially hazardous.". -/
theorem str_description_spec :
    (∀ o : NearEarthObject, o.diameter.isnan = false →
      o.str = "NEO " ++ o.fullname ++ " has a diameter of " ++
        o.diameter.format 3 ++ " km and " ++
        (if o.hazardous then "is" else "is not") ++
        " potentially hazardous.") ∧
    (∀ o : NearEarthObject, o.diameter.isnan = true →
      o.str = "NEO " ++ o.fullname ++ ", " ++
        (if o.hazardous then "is" else "is not") ++
        " potentially hazardous.") ∧
    (NearEarthObject.init "2015 AB" Option.none DiameterInput.emptyStr
        (PyVal.bool false)).str =
      "NEO 2015 AB, is not potentially hazardous." := by
  refine ⟨?_, ?_, by decide⟩ <;> intro o h <;> simp [NearEarthObject.str, h]

theorem str_description_spec_witness :
    erosNeo.str =
      "NEO 433 (Eros) has a diameter of 16.840 km and is not potentially hazardous." := by
  rw [str_description_spec.1 erosNeo (by decide)]
  decide

/-- C6: constructing with a float diameter `d ≥ 0` stores `d` exactly, and
constructing with the empty-string diameter stores the NaN sentinel, which
under Python float equality is not equal to itself. -/
theorem diameter_roundtrip :
    (∀ (designation : String) (name : Option String) (hazardous : PyVal)
        (d : ℚ), 0 ≤ d →
      (NearEarthObject.init designation name
          (DiameterInput.flt (PyFloat.val d)) hazardous).diameter =
        PyFloat.val d) ∧
    (∀ (designation : String) (name : Option String) (hazardous : PyVal),
      ((NearEarthObject.init designation name DiameterInput.emptyStr
          hazardous).diameter.pyEq
        (NearEarthObject.init designation name DiameterInput.emptyStr
          hazardous).diameter) = false) := by
  exact ⟨fun _ _ _ _ _ => rfl, fun _ _ _ => rfl⟩

theorem diameter_roundtrip_witness :
    (NearEarthObject.init "433" (some "Eros")
        (DiameterInput.flt (PyFloat.val (Rat.divInt 1684 100))) (PyVal.str "N")).diameter
      = PyFloat.val (Rat.divInt 1684 100) :=
  diameter_roundtrip.1 "433" (some "Eros") (PyVal.str "N") (Rat.divInt 1684 100)
    (by decide)

/-- C7 counterexample: the claim says an absent or empty-string name is
normalized to the string "no name"; the constructor instead normalizes it
to `None`, so the stored name at this concrete input is not "no name". -/
theorem name_no_name_counterexample :
    (NearEarthObject.init "2015 AB" (some "") DiameterInput.emptyStr
        (PyVal.bool false)).name = Option.none ∧
    (NearEarthObject.init "2015 AB" Option.none DiameterInput.emptyStr
        (PyVal.bool false)).name = Option.none ∧
    (Option.none : Option String) ≠ some "no name" := by
  decide

/-- C7 (amended): a `NearEarthObject` constructed with an absent or
empty-string name input stores `None` (the absent value) as its name
attribute, not the string "no name". -/
theorem name_empty_normalizes_to_none (designation : String)
    (name : Option String) (diameter : DiameterInput) (hazardous : PyVal)
    (h : name = Option.none ∨ name = some "") :
    (NearEarthObject.init designation name diameter hazardous).name =
      Option.none := by
  rcases h with h | h <;> subst h <;> simp [NearEarthObject.init]

theorem name_empty_normalizes_to_none_witness :
    (NearEarthObject.init "2015 AB" (some "") DiameterInput.emptyStr
        (PyVal.bool false)).name = Option.none :=
  name_empty_normalizes_to_none "2015 AB" (some "") DiameterInput.emptyStr
    (PyVal.bool false) (Or.inr rfl)

/-- C8: whatever designation argument is passed to the `CloseApproach`
constructor, the `neo` reference is `None` immediately after construction,
and the `designation` accessor returns the stored pre-link foreign-key
value unchanged both before and after the external linker assigns
`neo`. -/
theorem neo_starts_none_designation_stable (distance velocity : ℚ)
    (time : String) (neoArg : Option String) (n : NearEarthObject) :
    (CloseApproach.init distance velocity time neoArg).neo = Option.none ∧
    (CloseApproach.init distance velocity time neoArg).designation = neoArg ∧
    ((CloseApproach.init distance velocity time neoArg).link n).designation
      = neoArg :=
  ⟨rfl, rfl, rfl⟩

/-- C9: `time_str` returns the external formatting of the stored time when
it is set and the literal "an unknown date and time" when it is null; a
time string the parser cannot handle therefore degrades to this sentinel
instead of failing. -/
theorem time_str_spec (ca : CloseApproach) (s : String) (d v : ℚ)
    (neoArg : Option String) :
    (∀ t, ca.time = some t → ca.time_str = datetime_to_str t) ∧
    (ca.time = Option.none → ca.time_str = "an unknown date and time") ∧
    (cd_to_datetime s = Option.none →
      (CloseApproach.init d v s neoArg).time_str =
        "an unknown date and time") := by
  refine ⟨?_, ?_, ?_⟩
  · intro t ht
    simp [CloseApproach.time_str, ht]
  · intro ht
    simp [CloseApproach.time_str, ht]
  · intro hs
    simp [CloseApproach.init, CloseApproach.time_str, hs]

theorem time_str_spec_witness :
    (CloseApproach.init 0 0 "1900-Dec-27 01:30" Option.none).time_str =
      "1900-Dec-27 01:30" ∧
    (CloseApproach.init 0 0 "not a date" Option.none).time_str =
      "an unknown date and time" := by
  constructor
  · rw [(time_str_spec (CloseApproach.init 0 0 "1900-Dec-27 01:30"
        Option.none) "" 0 0 Option.none).1 ⟨1900, 12, 27, 1, 30⟩ (by decide)]
    decide
  · exact (time_str_spec (CloseApproach.init 0 0 "not a date" Option.none)
      "not a date" 0 0 Option.none).2.2 (by decide)

/-- C10: on an unlinked event (`neo` still `None`) the debug
representation succeeds and renders the null reference directly as
"None", while `__str__` and `serialize` on the same event dereference
`neo` and fail. -/
theorem unlinked_repr_total_str_serialize_fail (ca : CloseApproach)
    (h : ca.neo = Option.none) :
    ca.reprStr =
      "CloseApproach(time=" ++ pyReprStr ca.time_str ++ ", distance=" ++
        formatFixed 2 ca.distance ++ ", velocity=" ++
        formatFixed 2 ca.velocity ++ ", neo=" ++ "None" ++ ")" ∧
    ca.str = Option.none ∧
    ca.serialize "csv" =
      Except.error
        (PyError.attributeError
          "NoneType object has no attribute designation") ∧
    ca.serialize "json" =
      Except.error
        (PyError.attributeError
          "NoneType object has no attribute designation") := by
  refine ⟨?_, ?_, ?_, ?_⟩ <;>
    simp [CloseApproach.reprStr, pyReprOptNeo, CloseApproach.str,
      CloseApproach.serialize, h]

theorem unlinked_repr_total_str_serialize_fail_witness :
    erosApproach.str = Option.none ∧
    erosApproach.serialize "csv" =
      Except.error
        (PyError.attributeError
          "NoneType object has no attribute designation") :=
  ⟨(unlinked_repr_total_str_serialize_fail erosApproach rfl).2.1,
   (unlinked_repr_total_str_serialize_fail erosApproach rfl).2.2.1⟩
